import Mathlib

/-!
Verification development for the InventoryFlow order and inventory system.

The definitions below are a shallow embedding of the stock-mutating,
order-lifecycle, invoice-issuing and draft-expiry logic of the repository:
the client page `src/pages/Inventory.tsx` (manual adjustment, restock call),
the edge functions `inv_admin_restock`, `inv_generate_invoice`,
`inv_confirm_order` and the expiring-drafts cron, the sales page
`src/pages/Suppliers.tsx` (draft creation), the order-detail page
`src/pages/OrderDetail.tsx` (deliver action), and the identifier
generators in `src/lib/utils.ts`.  JavaScript numbers that only ever hold
integers are modelled as `Int`; `Math.random()` results are modelled as a
rational in `[0,1)`; fallible database calls are modelled with `Option` /
`Except` or an explicit outcome flag supplied by the environment.
-/

namespace InventoryFlow

/-! ## Stock Ledger operations -/

/--
The client-side guard of `handleAdjust` in `src/pages/Inventory.tsx`
(lines 96-103): `qty = parseInt(adjustQty)`; a non-positive or unparsable
quantity is rejected; `change = -qty`, `after = before + change`; if
`after < 0` the call is rejected before any write.  `none` models the
early `return` (no database call is made); `some after` is the value the
subsequent update writes.  A missing or unparsable input is modelled by
`qty ≤ 0` together with the explicit `isNat` flag being irrelevant here:
`parseInt` failure yields `NaN`, which the `isNaN` branch rejects exactly
like `qty ≤ 0`, so both rejections collapse to the same guard.
-/
def adjustGuard (before qty : Int) : Option Int :=
  if qty ≤ 0 then none
  else
    let change := -qty
    let after := before + change
    if after < 0 then none else some after

/--
Modelled from the spec: the Postgres RPC `blast_confirm_order_transaction`
called by `inv_confirm_order` is not part of the inspected sources; per
spec section 4.2 the confirm-deduct fails with `InsufficientStock` when
the deduction would drive `onHandPieces` negative, and per the same
section a requested quantity ≤ 0 is rejected with `InvalidArgument`.
-/
def deductRpc (inv pieces : Int) : Option Int :=
  if pieces ≤ 0 then none
  else if inv < pieces then none
  else some (inv - pieces)

/--
Modelled from the spec: the cancel/return restore path
(`inv_cancel_order` RPC body is not part of the inspected sources); per
spec section 4.2 `restore(productId, pieces)` adds the pieces back, with
quantities ≤ 0 rejected at the boundary.
-/
def restoreRpc (inv pieces : Int) : Option Int :=
  if pieces ≤ 0 then none else some (inv + pieces)

/--
The parameter validation of the `inv_admin_restock` edge function
(`supabase/functions/inv_admin_restock/index.ts` lines 29-33): a missing
(`null`) or non-positive `additional_pieces` throws
`Missing or invalid parameters` before the RPC is invoked.  The RPC body
`blast_admin_restock_transaction` is not part of the inspected sources;
modelled from the spec: restock is addition only and always succeeds for
positive input.
-/
def restockOp (inv : Int) (addPieces : Option Int) : Option Int :=
  match addPieces with
  | none => none
  | some p => if p ≤ 0 then none else some (inv + p)

/-- The four stock-mutating operations named by the spec. -/
inductive StockOp where
  | confirmDeduct (pieces : Int)
  | restore (pieces : Int)
  | adjust (qty : Int)
  | restock (addPieces : Option Int)
deriving Repr, DecidableEq

/-- Effect of one Stock Ledger operation on a stored piece count.
`none` means the operation failed and performed no write. -/
def applyStockOp (inv : Int) : StockOp → Option Int
  | .confirmDeduct p => deductRpc inv p
  | .restore p => restoreRpc inv p
  | .adjust q => adjustGuard inv q
  | .restock ap => restockOp inv ap

/-- Run a sequence of Stock Ledger operations; a failing operation
leaves the stored count at its prior value. -/
def runStock (inv : Int) : List StockOp → Int
  | [] => inv
  | op :: ops => runStock ((applyStockOp inv op).getD inv) ops

/-! ## Manual adjustment as a two-phase database interaction (C3) -/

/-- One row of `blast_inventory_adjustments` as written by `handleAdjust`
(the fields relevant to the before/after audit trail). -/
structure AdjRec where
  quantity_change : Int
  quantity_before : Int
  quantity_after : Int
deriving Repr, DecidableEq

/-- The state touched by `handleAdjust`: the inventory count of the target
product row and the adjustment-log table. -/
structure AdjustState where
  inventory : Int
  adjustments : List AdjRec
deriving Repr, DecidableEq

/-- Outcome of one database call, supplied by the environment. -/
inductive DbOutcome where
  | ok
  | fail
deriving Repr, DecidableEq

/--
The full `handleAdjust` flow of `src/pages/Inventory.tsx` (lines 96-137):
guard the quantity, then issue the `blast_products` update, then issue the
`blast_inventory_adjustments` insert; each call may fail.  An error throws
immediately (the toast), and there is no rollback of calls that already
completed: the two calls are separate REST requests, not one transaction.
Returns the resulting state and whether the flow reported success.
-/
def handleAdjustRun (s : AdjustState) (qty : Int)
    (updOutcome insOutcome : DbOutcome) : AdjustState × Bool :=
  match adjustGuard s.inventory qty with
  | none => (s, false)
  | some after =>
      match updOutcome with
      | .fail => (s, false)
      | .ok =>
          let s1 : AdjustState := { s with inventory := after }
          match insOutcome with
          | .fail => (s1, false)
          | .ok =>
              ({ s1 with adjustments :=
                  s1.adjustments ++ [⟨after - s.inventory, s.inventory, after⟩] },
               true)

/-! ## Orders, the Draft Reaper, and the deliver action -/

/-- Order status values of `blast_orders.status`. -/
inductive OrderStatus where
  | draft
  | confirmed
  | delivered
  | cancelled
deriving Repr, DecidableEq

/-- The columns of a `blast_orders` row that the claims touch:
status, creation time (epoch milliseconds) and delivery stamp. -/
structure OrderRow where
  status : OrderStatus
  createdAtMs : Int
  deliveredAtMs : Option Int
deriving Repr, DecidableEq

/-- The orders table, keyed by order id. -/
abbrev OrdersTable := List (Nat × OrderRow)

/-- Row lookup by id, the shape of `.eq(id, ...).single()`. -/
def lookupOrder : OrdersTable → Nat → Option OrderRow
  | [], _ => none
  | p :: t, id => if p.1 = id then some p.2 else lookupOrder t id

/-- The 24-hour expiry cutoff used by the expiring-drafts cron:
`new Date(Date.now() - 24*60*60*1000)`. -/
def expiryCutoff (nowMs : Int) : Int := nowMs - 24 * 60 * 60 * 1000

/-- The select phase of the expiring-drafts cron (unnamed edge function,
second half of `src/unnamed/part_006`): ids of orders with
`status = draft` and `created_at ≤ now - 24h`. -/
def reaperSelect (nowMs : Int) (t : OrdersTable) : List Nat :=
  (t.filter (fun p =>
    p.2.status = OrderStatus.draft ∧ p.2.createdAtMs ≤ expiryCutoff nowMs)).map Prod.fst

/-- The delete phase of the expiring-drafts cron:
`delete().in(id, ids)` — rows are removed by id alone, with no
re-check of the current status. -/
def reaperDelete (ids : List Nat) (t : OrdersTable) : OrdersTable :=
  t.filter (fun p => ¬ p.1 ∈ ids)

/-- Result reported by one run of the expiring-drafts cron. -/
inductive SweepResult where
  | noneFound
  | purged (n : Nat)
  | serverError
deriving Repr, DecidableEq

/--
One full run of the expiring-drafts cron: select the expired draft ids;
if none, report `No expired drafts found`; otherwise issue one bulk
delete for all ids.  The bulk delete may fail (`deleteFails` supplied by
the environment); on failure the error is thrown and the function
returns a 500 response with no row deleted and no per-row retry.
-/
def reaperSweep (nowMs : Int) (deleteFails : Bool) (t : OrdersTable) :
    OrdersTable × SweepResult :=
  let ids := reaperSelect nowMs t
  if ids.isEmpty then (t, .noneFound)
  else if deleteFails then (t, .serverError)
  else (reaperDelete ids t, .purged ids.length)

/--
Modelled from the spec: the status flip performed by the confirm
transaction (`blast_confirm_order_transaction`, not among the inspected
sources): a draft order becomes `confirmed`; other rows are untouched.
Only this status change matters to the reaper race.
-/
def confirmStatus (id : Nat) (t : OrdersTable) : OrdersTable :=
  t.map (fun p =>
    if p.1 = id ∧ p.2.status = OrderStatus.draft
    then (p.1, { p.2 with status := OrderStatus.confirmed })
    else p)

/--
The deliver branch of `doAction` in `src/pages/OrderDetail.tsx`
(lines 70-75): an unconditional update
`update(\x7b status: delivered, delivered_at: now \x7d).eq(id, id)` —
the filter is the order id alone; no status precondition is checked by
the update, and the RLS policy `Auth can update orders`
(`src/unnamed/part_007`) admits any authenticated user.
-/
def deliverUpdate (nowMs : Int) (id : Nat) (t : OrdersTable) : OrdersTable :=
  t.map (fun p =>
    if p.1 = id
    then (p.1, { p.2 with status := OrderStatus.delivered,
                          deliveredAtMs := some nowMs })
    else p)

/-! ## Draft creation and the database frame (C6) -/

/-- One cart line of the Pos page (`src/pages/Suppliers.tsx`): quantity,
unit (piece or case) and the pieces-per-case of the product. -/
structure CartItem where
  productId : Nat
  qty : Int
  unitIsCase : Bool
  piecesPerCase : Int
deriving Repr, DecidableEq

/-- One `blast_order_items` row (claim-relevant columns): order id,
product id, `cases_ordered` and `pieces_per_case_snapshot`. -/
structure OrderItemRow where
  orderId : Nat
  productId : Nat
  casesOrdered : Int
  piecesPerCaseSnapshot : Int
deriving Repr, DecidableEq

/-- The database tables the order flows touch: product piece counts
(`blast_products.inventory_pieces` keyed by product id), orders and
order items. -/
structure Db where
  products : List (Nat × Int)
  orders : OrdersTable
  orderItems : List OrderItemRow
deriving Repr, DecidableEq

/-- Computed pieces of one stored line:
`cases_ordered * pieces_per_case_snapshot`. -/
def OrderItemRow.computedPieces (it : OrderItemRow) : Int :=
  it.casesOrdered * it.piecesPerCaseSnapshot

/-- Deduct `pieces` from one product row of the products table. -/
def deductProduct (pid : Nat) (pieces : Int) (ps : List (Nat × Int)) :
    List (Nat × Int) :=
  ps.map (fun q => if q.1 = pid then (q.1, q.2 - pieces) else q)

/--
Modelled from the spec: the confirm transaction
(`blast_confirm_order_transaction`, called by `inv_confirm_order`; its
SQL body is not among the inspected sources).  Per spec section 4.1 it
verifies stock for every line of the order, aborts as a whole with no
partial deduction when any line lacks stock or the order is not a draft,
and otherwise deducts every line and sets the status to `confirmed`.
-/
def confirmOrderTransaction (oid : Nat) (db : Db) : Db × Bool :=
  match lookupOrder db.orders oid with
  | none => (db, false)
  | some row =>
      if row.status ≠ OrderStatus.draft then (db, false)
      else
        let lines := db.orderItems.filter (fun it => it.orderId = oid)
        if lines.any (fun it =>
            ((db.products.find? (fun q => q.1 = it.productId)).map Prod.snd).getD 0
              < it.computedPieces)
        then (db, false)
        else
          let ps := lines.foldl
            (fun acc it => deductProduct it.productId it.computedPieces acc)
            db.products
          ({ db with products := ps, orders := confirmStatus oid db.orders }, true)

/--
The `saveOrder` flow of the Pos page (`src/pages/Suppliers.tsx`
lines 270-337), restricted to the claim-relevant effects: validate the
cart (non-empty, every quantity positive), insert one `blast_orders` row
with `status = draft`, insert one `blast_order_items` row per cart line
(a piece line stores `pieces_per_case_snapshot = 1`), and, only when
`confirmFlag` is set, invoke the confirm transaction.  No branch of the
draft path writes to `blast_products`.  Returns the resulting database
and the success flag.
-/
def saveOrder (confirmFlag : Bool) (newOrderId : Nat) (nowMs : Int)
    (cart : List CartItem) (db : Db) : Db × Bool :=
  if cart.isEmpty then (db, false)
  else if cart.any (fun i => i.qty ≤ 0) then (db, false)
  else
    let db1 : Db :=
      { db with orders := db.orders ++ [(newOrderId, ⟨OrderStatus.draft, nowMs, none⟩)] }
    let items := cart.map (fun i =>
      OrderItemRow.mk newOrderId i.productId i.qty
        (if i.unitIsCase then i.piecesPerCase else 1))
    let db2 : Db := { db1 with orderItems := db1.orderItems ++ items }
    if confirmFlag then confirmOrderTransaction newOrderId db2 else (db2, true)

/-- The expiring-drafts cron run over the whole database: the orders
bulk delete, with `ON DELETE CASCADE` removing the items of the deleted
orders (the cron comment: cascades handle items).  `blast_products` is
never written. -/
def reaperSweepDb (nowMs : Int) (deleteFails : Bool) (db : Db) :
    Db × SweepResult :=
  let r := reaperSweep nowMs deleteFails db.orders
  let ids := reaperSelect nowMs db.orders
  if r.2 = SweepResult.purged ids.length then
    ({ db with orders := r.1,
               orderItems := db.orderItems.filter (fun it => ¬ it.orderId ∈ ids) },
     r.2)
  else (db, r.2)

/-! ## Invoice issuing (C2, C10) -/

/-- One `blast_invoices` row (claim-relevant columns). -/
structure InvRec where
  invoice_number : String
  pdf_url : String
deriving Repr, DecidableEq

/-- The `blast_invoices` rows for one fixed order.  Modelled from the
spec: the table schema is not among the inspected sources; per spec
section 3 there is a unique constraint on the order id, so the table can
hold at most one row per order and a second insert for the same order
fails with a uniqueness violation. -/
abbrev InvoiceStore := Option InvRec

/-- Insert under the unique constraint: fails (store unchanged, `false`)
when a row for the order already exists. -/
def insertInvoice (store : InvoiceStore) (r : InvRec) : InvoiceStore × Bool :=
  match store with
  | some old => (some old, false)
  | none => (some r, true)

/--
The body of `inv_generate_invoice`
(`supabase/functions/inv_generate_invoice/index.ts` lines 63-199) after
its read of `blast_invoices`, as a function of the value that read
returned (`readRow`), the freshly rendered record (`fresh`) and the
store at the moment the insert executes.  If the read found a row, its
`pdf_url` is returned and nothing is written.  Otherwise the PDF is
rendered, uploaded, and the row inserted; an insert failure is thrown
(`if (insertError) throw insertError`), surfacing as the error response
— there is no fallback read of the winning row.
-/
def issueFromRead (readRow : InvoiceStore) (fresh : InvRec)
    (store : InvoiceStore) : InvoiceStore × Except String String :=
  match readRow with
  | some inv => (store, .ok inv.pdf_url)
  | none =>
      match insertInvoice store fresh with
      | (store1, true) => (store1, .ok fresh.pdf_url)
      | (store1, false) =>
          (store1, .error "duplicate key value violates unique constraint")

/-- One complete sequential `issue` call against the current store. -/
def issueOnce (store : InvoiceStore) (fresh : InvRec) :
    InvoiceStore × Except String String :=
  issueFromRead store fresh store

/-- Roles of `blast_users.role`. -/
inductive Role where
  | admin
  | staff
deriving Repr, DecidableEq

/-- The order columns read by the invoice function before its
authorization check. -/
structure OrderInfo where
  status : OrderStatus
  userId : Nat
deriving Repr, DecidableEq

/-- Where a call to `inv_generate_invoice` stops. -/
inductive GenInvoiceOutcome where
  | errMissingOrderId
  | errOrderFetch
  | errStatus
  | errUnauthorized
  | proceeded
deriving Repr, DecidableEq

/--
The guard sequence of `inv_generate_invoice`
(`supabase/functions/inv_generate_invoice/index.ts` lines 30-54), in
source order: missing `order_id`; order fetch via `.single()`; status
must be `confirmed` or `delivered`; then the authorization check —
the requester must have role `admin` in `blast_users`, or be the
`user_id` stored on the order; otherwise
`Unauthorized to access this invoice` is thrown.
-/
def generateInvoiceGate (orderId : Option Nat)
    (orderOf : Nat → Option OrderInfo) (roleOf : Nat → Option Role)
    (callerId : Nat) : GenInvoiceOutcome :=
  match orderId with
  | none => .errMissingOrderId
  | some oid =>
      match orderOf oid with
      | none => .errOrderFetch
      | some o =>
          if o.status ≠ OrderStatus.confirmed ∧ o.status ≠ OrderStatus.delivered
          then .errStatus
          else if roleOf callerId ≠ some Role.admin ∧ o.userId ≠ callerId
          then .errUnauthorized
          else .proceeded

/-- The full `inv_generate_invoice` call: the guards, then the
existing-invoice check and conditional render-upload-insert.  On any
guard failure the invoice store is untouched and no reference is
returned. -/
def generateInvoiceRun (orderId : Option Nat)
    (orderOf : Nat → Option OrderInfo) (roleOf : Nat → Option Role)
    (callerId : Nat) (store : InvoiceStore) (fresh : InvRec) :
    InvoiceStore × Except GenInvoiceOutcome String :=
  match generateInvoiceGate orderId orderOf roleOf callerId with
  | .proceeded =>
      match issueOnce store fresh with
      | (store1, .ok url) => (store1, .ok url)
      | (store1, .error _) => (store1, .error .proceeded)
  | e => (store, .error e)

/-! ## Identifier generators (C8) -/

/-- The random five-digit block shared by the three generators in
`src/lib/utils.ts` (lines 42-58) and by the invoice number of
`inv_generate_invoice` (line 78):
`Math.floor(10000 + Math.random() * 90000)`, with the `Math.random()`
result modelled as a rational `r` with `0 ≤ r < 1`. -/
def genSeq (r : ℚ) : Int := ⌊(10000 : ℚ) + r * 90000⌋

/-- `generateOrderNumber` of `src/lib/utils.ts`: the current four-digit
year and the random block. -/
def generateOrderNumber (year : Int) (r : ℚ) : String :=
  "ORD-" ++ toString year ++ "-" ++ toString (genSeq r)

/-- `generateInvoiceNumber` of `src/lib/utils.ts` (the invoice function
builds the same shape from the order creation year). -/
def generateInvoiceNumber (year : Int) (r : ℚ) : String :=
  "INV-" ++ toString year ++ "-" ++ toString (genSeq r)

/-- `generateReturnNumber` of `src/lib/utils.ts`. -/
def generateReturnNumber (year : Int) (r : ℚ) : String :=
  "RET-" ++ toString year ++ "-" ++ toString (genSeq r)

/-- A four-digit number, the stated year shape. -/
def fourDigit (n : Int) : Prop := 1000 ≤ n ∧ n ≤ 9999

/-- A five-digit number, the stated sequence shape. -/
def fiveDigit (n : Int) : Prop := 10000 ≤ n ∧ n ≤ 99999

/-! ## Restock boundary (C9) -/

/-- Result of the `inv_admin_restock` request handling. -/
inductive RestockResult where
  | badRequest (msg : String)
  | rpcInvoked (pieces : Int)
deriving Repr, DecidableEq

/--
The parameter validation of `inv_admin_restock`
(`supabase/functions/inv_admin_restock/index.ts` lines 29-40):
`if (!product_id || additional_pieces == null || additional_pieces <= 0)`
throws `Missing or invalid parameters` before the RPC call; a missing or
empty `product_id` is falsy, a `null`/absent `additional_pieces` is
`== null`.  Only when validation passes is the RPC invoked with the
pieces value.
-/
def restockHandler (productId : Option String) (addPieces : Option Int) :
    RestockResult :=
  if productId = none ∨ productId = some "" then
    .badRequest "Missing or invalid parameters"
  else
    match addPieces with
    | none => .badRequest "Missing or invalid parameters"
    | some p =>
        if p ≤ 0 then .badRequest "Missing or invalid parameters"
        else .rpcInvoked p

/-! ## Theorems -/

lemma applyStockOp_nonneg {inv v : Int} (h : 0 ≤ inv) (op : StockOp)
    (hv : applyStockOp inv op = some v) : 0 ≤ v := by
  cases op with
  | confirmDeduct p =>
      simp only [applyStockOp, deductRpc] at hv
      split at hv
      · exact absurd hv (by simp)
      · split at hv
        · exact absurd hv (by simp)
        · simp only [Option.some.injEq] at hv
          omega
  | restore p =>
      simp only [applyStockOp, restoreRpc] at hv
      split at hv
      · exact absurd hv (by simp)
      · simp only [Option.some.injEq] at hv
        omega
  | adjust q =>
      simp only [applyStockOp, adjustGuard] at hv
      split at hv
      · exact absurd hv (by simp)
      · split at hv
        · exact absurd hv (by simp)
        · simp only [Option.some.injEq] at hv
          omega
  | restock ap =>
      simp only [applyStockOp, restockOp] at hv
      cases ap with
      | none => exact absurd hv (by simp)
      | some p =>
          simp only at hv
          split at hv
          · exact absurd hv (by simp)
          · simp only [Option.some.injEq] at hv
            omega

lemma runStock_nonneg {inv : Int} (h : 0 ≤ inv) (ops : List StockOp) :
    0 ≤ runStock inv ops := by
  induction ops generalizing inv with
  | nil => simpa [runStock] using h
  | cons op ops ih =>
      simp only [runStock]
      apply ih
      cases hv : applyStockOp inv op with
      | none => simpa [hv] using h
      | some v => simpa [hv] using applyStockOp_nonneg h op hv

/--
C1: starting from a non-negative piece count, every sequence of Stock
Ledger operations (confirm-deduct, restore, manual adjustment, restock)
keeps the stored count non-negative; no single successful operation
yields a negative value, and a failing operation leaves the stored count
equal to its prior value.
-/
theorem C1_stock_nonnegativity (inv : Int) (h : 0 ≤ inv) :
    (∀ ops : List StockOp, 0 ≤ runStock inv ops) ∧
    (∀ op v, applyStockOp inv op = some v → 0 ≤ v) ∧
    (∀ op, applyStockOp inv op = none → runStock inv [op] = inv) := by
  refine ⟨fun ops => runStock_nonneg h ops,
          fun op v hv => applyStockOp_nonneg h op hv,
          fun op hop => ?_⟩
  simp [runStock, hop]

/-- C1 witness: the non-negativity theorem applied at a concrete count
and a concrete operation sequence including a failing over-deduction. -/
theorem C1_stock_nonnegativity_witness :
    0 ≤ (5 : Int) ∧
    0 ≤ runStock 5 [StockOp.confirmDeduct 3, StockOp.adjust 10,
                    StockOp.restock (some 2)] :=
  ⟨by decide,
   (C1_stock_nonnegativity 5 (by decide)).1
     [StockOp.confirmDeduct 3, StockOp.adjust 10, StockOp.restock (some 2)]⟩

/--
C3 as stated is false: with inventory 5 and a valid deduction of 3, a
successful product update followed by a failing adjustment-record insert
leaves the inventory at 2 with no adjustment record and an error
reported — the stock mutation took effect without its audit record,
because the two writes are separate requests with no enclosing
transaction and no rollback.
-/
theorem C3_counterexample :
    handleAdjustRun ⟨5, []⟩ 3 DbOutcome.ok DbOutcome.fail
      = (⟨2, []⟩, false) := by
  decide

/--
C3 amended: the product update and the adjustment-record insert are
sequential, not atomic.  If the update fails, nothing changes.  If the
update succeeds and the insert fails, the inventory mutation remains
committed with no matching adjustment record and the flow reports an
error.  Only when both calls succeed does the matching before/after
record exist.
-/
theorem C3_amended (s : AdjustState) (qty after : Int)
    (hg : adjustGuard s.inventory qty = some after) :
    (∀ ins, handleAdjustRun s qty DbOutcome.fail ins = (s, false)) ∧
    handleAdjustRun s qty DbOutcome.ok DbOutcome.fail
      = ({ s with inventory := after }, false) ∧
    handleAdjustRun s qty DbOutcome.ok DbOutcome.ok
      = ({ inventory := after,
           adjustments :=
             s.adjustments ++ [⟨after - s.inventory, s.inventory, after⟩] },
         true) := by
  refine ⟨fun ins => ?_, ?_, ?_⟩ <;>
    simp [handleAdjustRun, hg]

/-- C3 amended witness: the amended theorem applied at inventory 5,
deduction 3. -/
theorem C3_amended_witness :
    handleAdjustRun ⟨5, []⟩ 3 DbOutcome.ok DbOutcome.fail
      = (⟨2, ([] : List AdjRec)⟩, false) ∧
    handleAdjustRun ⟨5, []⟩ 3 DbOutcome.ok DbOutcome.ok
      = (⟨2, [⟨-3, 5, 2⟩]⟩, true) := by
  have h := C3_amended ⟨5, []⟩ 3 2 (by decide)
  exact ⟨h.2.1, by simpa using h.2.2⟩

/--
C2 as stated is false: in the interleaving where both `issue` calls read
`blast_invoices` before either inserts, the first call inserts its fresh
record and returns its reference, but the second call hits the
uniqueness violation on insert and throws it — it returns an error, not
the stored record, so the two calls do not both return the stored
document reference.
-/
theorem C2_counterexample :
    (issueFromRead none ⟨"INV-2025-10001", "invoices/INV-2025-10001.pdf"⟩
        none).2
      = Except.ok "invoices/INV-2025-10001.pdf" ∧
    (issueFromRead none ⟨"INV-2025-20002", "invoices/INV-2025-20002.pdf"⟩
        (issueFromRead none ⟨"INV-2025-10001", "invoices/INV-2025-10001.pdf"⟩
          none).1).2
      = Except.error "duplicate key value violates unique constraint" := by
  constructor <;> rfl

/--
C2 amended: sequential double issue is idempotent — the first call
inserts one record and the second call returns the same stored
reference, leaving exactly one record.  Under the interleaved race, the
store still ends with exactly the winner record (the unique constraint
holds), and the winner returns its reference, but the losing call fails
with the uniqueness-violation error instead of falling back to the
stored record.
-/
theorem C2_amended (a b : InvRec) :
    (issueOnce none a = (some a, Except.ok a.pdf_url) ∧
     issueOnce (issueOnce none a).1 b = (some a, Except.ok a.pdf_url)) ∧
    ((issueFromRead none a none).2 = Except.ok a.pdf_url ∧
     issueFromRead none b (issueFromRead none a none).1
       = (some a,
          Except.error "duplicate key value violates unique constraint")) := by
  refine ⟨⟨?_, ?_⟩, ?_, ?_⟩ <;>
    simp [issueOnce, issueFromRead, insertInvoice]

lemma lookup_reaperDelete_mem {ids : List Nat} {id : Nat} (h : id ∈ ids) :
    ∀ t : OrdersTable, lookupOrder (reaperDelete ids t) id = none := by
  intro t
  induction t with
  | nil => rfl
  | cons p t ih =>
      by_cases hp : p.1 ∈ ids
      · simpa [reaperDelete, List.filter_cons, hp] using ih
      · have hne : p.1 ≠ id := fun e => hp (e ▸ h)
        simp only [reaperDelete, List.filter_cons] at ih ⊢
        simpa [hp, lookupOrder, hne] using ih

lemma lookup_deliverUpdate (nowMs : Int) (id j : Nat) (t : OrdersTable) :
    lookupOrder (deliverUpdate nowMs id t) j
      = (lookupOrder t j).map (fun r =>
          if j = id
          then { r with status := OrderStatus.delivered,
                        deliveredAtMs := some nowMs }
          else r) := by
  induction t with
  | nil => rfl
  | cons p t ih =>
      obtain ⟨i, r0⟩ := p
      by_cases hij : i = j
      · subst hij
        by_cases hid : i = id
        · subst hid
          simp [deliverUpdate, lookupOrder]
        · simp [deliverUpdate, lookupOrder, hid, Ne.symm hid]
      · by_cases hid : i = id
        · subst hid
          simpa [deliverUpdate, lookupOrder, hij, Ne.symm hij] using ih
        · simpa [deliverUpdate, lookupOrder, hij, hid] using ih

lemma deliverUpdate_not_found (nowMs : Int) (id : Nat) (t : OrdersTable)
    (h : lookupOrder t id = none) : deliverUpdate nowMs id t = t := by
  induction t with
  | nil => rfl
  | cons p t ih =>
      obtain ⟨i, r0⟩ := p
      by_cases hi : i = id
      · exfalso
        subst hi
        simp [lookupOrder] at h
      · have ht : lookupOrder t id = none := by
          simpa [lookupOrder, hi] using h
        simpa [deliverUpdate, hi] using ih ht

/--
C4 as stated is false: one order, created a draft at time 0 and still a
draft when the sweep selects at the 24-hour mark, is confirmed between
the select and the delete; the delete filters by id alone, so the
now-confirmed order is deleted anyway.
-/
theorem C4_counterexample :
    (let t : OrdersTable := [(1, ⟨OrderStatus.draft, 0, none⟩)]
     let ids := reaperSelect 86400000 t
     let t1 := confirmStatus 1 t
     lookupOrder t1 1 = some ⟨OrderStatus.confirmed, 0, none⟩ ∧
     reaperDelete ids t1 = []) := by
  decide

/--
C4 amended: the sweep deletes every id it selected regardless of the
status of the row at delete time; in particular an order confirmed
between the select and the delete is deleted all the same.
-/
theorem C4_amended (t : OrdersTable) (nowMs : Int) (id : Nat)
    (h : id ∈ reaperSelect nowMs t) :
    lookupOrder (reaperDelete (reaperSelect nowMs t) (confirmStatus id t)) id
      = none :=
  lookup_reaperDelete_mem h (confirmStatus id t)

/-- C4 amended witness: the amended theorem applied to the concrete
one-order table of the counterexample schedule. -/
theorem C4_amended_witness :
    lookupOrder (reaperDelete (reaperSelect 86400000 [(1, ⟨OrderStatus.draft, 0, none⟩)])
        (confirmStatus 1 [(1, ⟨OrderStatus.draft, 0, none⟩)])) 1
      = none :=
  C4_amended [(1, ⟨OrderStatus.draft, 0, none⟩)] 86400000 1 (by decide)

/--
C5 as stated is false: the deliver action updates
`status = delivered, delivered_at = now` filtered on the order id alone,
so invoked against a draft order (or a cancelled one) it succeeds and
overwrites the status instead of failing with an invalid-state error.
-/
theorem C5_counterexample :
    deliverUpdate 500 7 [(7, ⟨OrderStatus.draft, 0, none⟩)]
      = [(7, ⟨OrderStatus.delivered, 0, some 500⟩)] ∧
    deliverUpdate 500 7 [(7, ⟨OrderStatus.cancelled, 0, none⟩)]
      = [(7, ⟨OrderStatus.delivered, 0, some 500⟩)] := by
  decide

/--
C5 amended: the deliver update has no status precondition — for every
existing order, whatever its status, it sets `status = delivered` and
stamps `delivered_at`; rows with other ids are untouched; and when no
row has the id the update matches nothing and the table is unchanged
(the call still reports success).  Only the page rendering restricts the
button to confirmed orders; no invalid-state failure exists in the
operation.
-/
theorem C5_amended (t : OrdersTable) (nowMs : Int) (id : Nat) :
    (∀ row, lookupOrder t id = some row →
       lookupOrder (deliverUpdate nowMs id t) id
         = some { row with status := OrderStatus.delivered,
                           deliveredAtMs := some nowMs }) ∧
    (∀ j, j ≠ id → lookupOrder (deliverUpdate nowMs id t) j = lookupOrder t j) ∧
    (lookupOrder t id = none → deliverUpdate nowMs id t = t) := by
  refine ⟨fun row hrow => ?_, fun j hj => ?_,
          fun hnone => deliverUpdate_not_found nowMs id t hnone⟩
  · rw [lookup_deliverUpdate, hrow]
    simp
  · rw [lookup_deliverUpdate]
    simp [hj]

/-- C5 amended witness: the amended theorem applied to a one-row table
holding a draft order, showing the unconditional overwrite. -/
theorem C5_amended_witness :
    lookupOrder (deliverUpdate 500 7 [(7, ⟨OrderStatus.draft, 0, none⟩)]) 7
      = some ⟨OrderStatus.delivered, 0, some 500⟩ :=
  (C5_amended [(7, ⟨OrderStatus.draft, 0, none⟩)] 500 7).1
    ⟨OrderStatus.draft, 0, none⟩ (by decide)

lemma saveOrder_draft_products (newOrderId : Nat) (nowMs : Int)
    (cart : List CartItem) (db : Db) :
    ((saveOrder false newOrderId nowMs cart db).1).products = db.products := by
  unfold saveOrder
  split
  · rfl
  · split
    · rfl
    · simp

lemma reaperSweepDb_products (nowMs : Int) (fails : Bool) (db : Db) :
    ((reaperSweepDb nowMs fails db).1).products = db.products := by
  unfold reaperSweepDb
  simp only []
  split <;> rfl

/--
C6: saving an order as a draft writes only the orders and order-items
tables, and the expiring-drafts sweep deletes only order and order-item
rows, so creating a draft and later expiring it (or running the sweep at
any time, with or without a delete failure) leaves every product piece
count exactly as it was before the draft existed.
-/
theorem C6_draft_frame (newOrderId : Nat) (nowMs reapMs : Int)
    (cart : List CartItem) (db : Db) (deleteFails : Bool) :
    ((saveOrder false newOrderId nowMs cart db).1).products = db.products ∧
    ((reaperSweepDb reapMs deleteFails
        (saveOrder false newOrderId nowMs cart db).1).1).products
      = db.products := by
  refine ⟨saveOrder_draft_products newOrderId nowMs cart db, ?_⟩
  rw [reaperSweepDb_products]
  exact saveOrder_draft_products newOrderId nowMs cart db

/--
C7 as stated is false: with two expired drafts and a failing delete, the
sweep issues a single bulk delete, throws the error, and returns a 500 —
no row is logged and skipped, and the remaining expired drafts are not
deleted either.
-/
theorem C7_counterexample :
    reaperSweep 86400000 true
        [(1, ⟨OrderStatus.draft, 0, none⟩), (2, ⟨OrderStatus.draft, 0, none⟩)]
      = ([(1, ⟨OrderStatus.draft, 0, none⟩), (2, ⟨OrderStatus.draft, 0, none⟩)],
         SweepResult.serverError) := by
  rfl

/--
C7 amended: a delete failure is fatal to the whole sweep — the cron
issues one bulk delete for all selected ids; when that delete fails the
run returns an error response and deletes nothing, and only a fully
successful delete removes the expired drafts.
-/
theorem C7_amended (nowMs : Int) (t : OrdersTable)
    (h : (reaperSelect nowMs t).isEmpty = false) :
    reaperSweep nowMs true t = (t, SweepResult.serverError) ∧
    reaperSweep nowMs false t
      = (reaperDelete (reaperSelect nowMs t) t,
         SweepResult.purged (reaperSelect nowMs t).length) := by
  unfold reaperSweep
  simp [h]

/-- C7 amended witness: the amended theorem applied to a one-expired-draft
table. -/
theorem C7_amended_witness :
    reaperSweep 86400000 true [(1, ⟨OrderStatus.draft, 0, none⟩)]
      = ([(1, ⟨OrderStatus.draft, 0, none⟩)], SweepResult.serverError) ∧
    reaperSweep 86400000 false [(1, ⟨OrderStatus.draft, 0, none⟩)]
      = (reaperDelete (reaperSelect 86400000 [(1, ⟨OrderStatus.draft, 0, none⟩)])
           [(1, ⟨OrderStatus.draft, 0, none⟩)],
         SweepResult.purged
           (reaperSelect 86400000 [(1, ⟨OrderStatus.draft, 0, none⟩)]).length) :=
  C7_amended 86400000 [(1, ⟨OrderStatus.draft, 0, none⟩)] rfl

/--
C8 as stated is false on uniqueness: the five-digit block is
`Math.floor(10000 + Math.random() * 90000)` with no uniqueness
mechanism, so two distinct generation calls — here with two different
random draws in the same year — produce the same identifier.
-/
theorem C8_counterexample :
    generateOrderNumber 2026 (1 / 2)
      = generateOrderNumber 2026 (90001 / 180000) ∧
    (1 / 2 : ℚ) ≠ 90001 / 180000 ∧
    (0 : ℚ) ≤ 1 / 2 ∧ (1 / 2 : ℚ) < 1 ∧
    (0 : ℚ) ≤ 90001 / 180000 ∧ (90001 / 180000 : ℚ) < 1 := by
  have hseq : genSeq (1 / 2) = genSeq (90001 / 180000) := by
    norm_num [genSeq]
  exact ⟨by rw [generateOrderNumber, generateOrderNumber, hseq],
    by norm_num, by norm_num, by norm_num, by norm_num, by norm_num⟩

/--
C8 amended: every generated identifier matches the stated format — the
literal tag (`ORD`, `INV` or `RET`), the clock year (four digits
whenever the year lies in 1000..9999, which it always does in this
system's era) and a five-digit sequence, since the random block always
lies in 10000..99999.  Distinctness of two generation calls is not
guaranteed: the sequence is a bare random draw (see the
counterexample).
-/
theorem C8_amended (year : Int) (r : ℚ) (hy : fourDigit year)
    (h0 : 0 ≤ r) (h1 : r < 1) :
    fourDigit year ∧ fiveDigit (genSeq r) ∧
    generateOrderNumber year r
      = "ORD-" ++ toString year ++ "-" ++ toString (genSeq r) ∧
    generateInvoiceNumber year r
      = "INV-" ++ toString year ++ "-" ++ toString (genSeq r) ∧
    generateReturnNumber year r
      = "RET-" ++ toString year ++ "-" ++ toString (genSeq r) := by
  refine ⟨hy, ⟨?_, ?_⟩, rfl, rfl, rfl⟩
  · rw [genSeq]
    rw [Int.le_floor]
    push_cast
    nlinarith
  · have hlt : genSeq r < 100000 := by
      rw [genSeq]
      rw [Int.floor_lt]
      push_cast
      nlinarith
    omega

/-- C8 amended witness: the amended theorem applied at year 2026 and a
concrete random draw. -/
theorem C8_amended_witness :
    fourDigit 2026 ∧ fiveDigit (genSeq (1 / 2)) ∧
    generateOrderNumber 2026 (1 / 2)
      = "ORD-" ++ toString (2026 : Int) ++ "-" ++ toString (genSeq (1 / 2)) ∧
    generateInvoiceNumber 2026 (1 / 2)
      = "INV-" ++ toString (2026 : Int) ++ "-" ++ toString (genSeq (1 / 2)) ∧
    generateReturnNumber 2026 (1 / 2)
      = "RET-" ++ toString (2026 : Int) ++ "-" ++ toString (genSeq (1 / 2)) :=
  C8_amended 2026 (1 / 2) ⟨by norm_num, by norm_num⟩ (by norm_num) (by norm_num)

/--
C9 as stated is false at `additional_pieces = 0`: zero is a non-negative
input, which the claim says must succeed, yet the boundary check
`additional_pieces <= 0` rejects it with the invalid-parameters error
before any RPC call.
-/
theorem C9_counterexample :
    restockHandler (some "prod-1") (some 0)
      = RestockResult.badRequest "Missing or invalid parameters" ∧
    (0 : Int) ≤ 0 := by
  exact ⟨rfl, le_refl 0⟩

/--
C9 amended: the restock call succeeds for every strictly positive
`additional_pieces` — the boundary passes it to the RPC, which adds it
to the stored count — while a missing product id, a missing
`additional_pieces`, or a value ≤ 0 is rejected at the boundary with the
invalid-parameters error before any stock mutation is attempted.
-/
theorem C9_amended (pid : String) (p inv : Int) (hpid : pid ≠ "") :
    (0 < p →
       restockHandler (some pid) (some p) = RestockResult.rpcInvoked p ∧
       restockOp inv (some p) = some (inv + p)) ∧
    (p ≤ 0 →
       restockHandler (some pid) (some p)
         = RestockResult.badRequest "Missing or invalid parameters") ∧
    restockHandler (some pid) none
      = RestockResult.badRequest "Missing or invalid parameters" ∧
    restockHandler none (some p)
      = RestockResult.badRequest "Missing or invalid parameters" := by
  refine ⟨fun hp => ?_, fun hp => ?_, ?_, ?_⟩
  · constructor
    · simp [restockHandler, hpid, show ¬ p ≤ 0 from by omega]
    · simp [restockOp, show ¬ p ≤ 0 from by omega]
  · simp [restockHandler, hpid, hp]
  · simp [restockHandler, hpid]
  · simp [restockHandler]

/-- C9 amended witness: the amended theorem applied at a concrete
product id and 5 added pieces on a stock of 10. -/
theorem C9_amended_witness :
    restockHandler (some "prod-1") (some 5) = RestockResult.rpcInvoked 5 ∧
    restockOp 10 (some 5) = some 15 :=
  (C9_amended "prod-1" 5 10 (by decide)).1 (by decide)

/--
C10: the invoice function proceeds past its guards exactly when the
requesting user has the admin role or is the `user_id` stored on the
(confirmed or delivered) order; any other authenticated requester is
stopped by the authorization error, and in that case the invoice store
is untouched and no reference is returned.
-/
theorem C10_invoice_authorization (orderId : Nat)
    (orderOf : Nat → Option OrderInfo) (roleOf : Nat → Option Role)
    (callerId : Nat) (o : OrderInfo) (store : InvoiceStore) (fresh : InvRec)
    (hord : orderOf orderId = some o)
    (hstatus : o.status = OrderStatus.confirmed ∨
               o.status = OrderStatus.delivered) :
    (generateInvoiceGate (some orderId) orderOf roleOf callerId
        = GenInvoiceOutcome.proceeded
      ↔ (roleOf callerId = some Role.admin ∨ o.userId = callerId)) ∧
    (¬ (roleOf callerId = some Role.admin ∨ o.userId = callerId) →
       generateInvoiceRun (some orderId) orderOf roleOf callerId store fresh
         = (store, Except.error GenInvoiceOutcome.errUnauthorized)) := by
  have hs : ¬ (o.status ≠ OrderStatus.confirmed ∧
               o.status ≠ OrderStatus.delivered) := by
    rcases hstatus with h | h <;> simp [h]
  constructor
  · by_cases ha : roleOf callerId = some Role.admin <;>
      by_cases hu : o.userId = callerId <;>
      simp [generateInvoiceGate, hord, hs, ha, hu]
  · intro hno
    push_neg at hno
    simp [generateInvoiceRun, generateInvoiceGate, hord, hs, hno.1, hno.2]

/-- C10 witness: a staff caller who did not create the order is stopped
with the authorization error and the store is untouched. -/
theorem C10_invoice_authorization_witness :
    generateInvoiceRun (some 1) (fun _ => some ⟨OrderStatus.confirmed, 42⟩)
        (fun _ => some Role.staff) 7 none
        ⟨"INV-2025-10001", "invoices/INV-2025-10001.pdf"⟩
      = (none, Except.error GenInvoiceOutcome.errUnauthorized) :=
  (C10_invoice_authorization 1 (fun _ => some ⟨OrderStatus.confirmed, 42⟩)
      (fun _ => some Role.staff) 7 ⟨OrderStatus.confirmed, 42⟩ none
      ⟨"INV-2025-10001", "invoices/INV-2025-10001.pdf"⟩ rfl
      (Or.inl rfl)).2 (by decide)

end InventoryFlow
